import Mathlib

/-!
Shallow embedding of `lora.py` from the ComfyUI SDXL DreamBooth LoRA custom-node
repository, together with theorems settling the frozen claims about it.

Modelling conventions:
* Python strings are Lean `String`s; the Python operators `s.endswith`,
  `in` (substring) and `s.startswith` are embedded through the character
  lists of the strings.
* The host framework's collaborators (`folder_paths.get_full_path`,
  `comfy.utils.load_torch_file`, `torch.load`, the two download helpers and
  `comfy.sd.load_lora_for_models`) are oracles passed in as functions;
  fallible ones return `Except`.
* `os.environ` is a total map `String → Option String`; the filesystem is the
  list of paths of the files that exist; `uuid.uuid4()` is modelled by the
  fresh token the oracle environment supplies for the invocation.
-/

namespace SDXLLora

/-- Python `s.endswith(t)`, embedded through the character lists. -/
def pyEndsWith (s t : String) : Bool := decide (t.data <:+ s.data)

/-- Python `t in s` (substring test), embedded through the character lists. -/
def pyContains (s t : String) : Bool := decide (t.data <:+: s.data)

/-- Python `s.startswith(t)`, embedded through the character lists. -/
def pyStartsWith (s t : String) : Bool := decide (t.data <+: s.data)

/-- Python truthiness of an `Optional[str]`: `None` and `""` are falsy. -/
def optTruthy : Option String → Bool
  | none => false
  | some s => s ≠ ""

/-- `pathlib.Path(p).parent` for the slash-separated paths this plugin builds
(no trailing slash): everything before the last `/`, `"/"` when the path is a
single root-level name, `"."` when there is no `/` at all. -/
def parentDir (p : String) : String :=
  if p.data.contains '/' then
    let kept := (p.data.reverse.dropWhile (fun c => c ≠ '/')).tail.reverse
    if kept.isEmpty then "/" else String.mk kept
  else "."

/-- `os.path.join(d, f)` for a relative file name `f`. -/
def joinPath (d f : String) : String :=
  if pyEndsWith d "/" then d ++ f else d ++ "/" ++ f

/-- The sibling file read by `load_checkpoint_lora` (src/lora.py lines 263-266):
`os.path.join(Path(lora_path).parent, "pytorch_lora_weights.bin")`. -/
def checkpointWeightsPath (lora_path : String) : String :=
  joinPath (parentDir lora_path) "pytorch_lora_weights.bin"

/-- The file actually read on a cache miss for `local_lora_path`
(src/lora.py lines 248-255): the checkpoint sibling when the path is truthy and
contains `"checkpoint"`, the path itself otherwise. -/
def loraReadPath (local_lora_path : String) : String :=
  if local_lora_path ≠ "" ∧ pyContains local_lora_path "checkpoint" = true then
    checkpointWeightsPath local_lora_path
  else
    local_lora_path

/-- `S3Bucket_Load_LoRA.get_local_lora_name` (src/lora.py lines 182-189).
`lora_name_map` is the instance's memo dict as an association list; `uuid` is
the token `uuid.uuid4()` would freshly produce for this call. Returns the local
name together with the updated map. -/
def get_local_lora_name (lora_name_map : List (String × String)) (uuid : String)
    (lora_name : String) : String × List (String × String) :=
  match lora_name_map.lookup lora_name with
  | some v => (v, lora_name_map)
  | none =>
      if pyEndsWith lora_name ".safetensors" || pyContains lora_name "checkpoint" then
        (lora_name, (lora_name, lora_name) :: lora_name_map)
      else
        (uuid ++ ".safetensors", (lora_name, uuid ++ ".safetensors") :: lora_name_map)

/-- The single-slot cache step shared by `XLDB_LoRA.load_lora`
(src/lora.py lines 98-111) and `S3Bucket_Load_LoRA.load_lora` (lines 239-255):
on a key match return the stored blob without calling `loader`, otherwise drop
the old entry, call `loader`, and on success store `(path, blob)` as the sole
entry. Returns (outcome, cache afterwards, whether `loader` was invoked).
`XLDB_LoRA` clears the stale entry with `del self.loaded_lora` rather than
`= None`; the difference is observable only on a later call after the loader
raised, which no claim reaches, so both are modelled as `none`. -/
def get_or_load {κ β ε : Type} [DecidableEq κ]
    (loaded_lora : Option (κ × β)) (path : κ) (loader : κ → Except ε β) :
    Except ε β × Option (κ × β) × Bool :=
  let hit : Option β :=
    match loaded_lora with
    | some kb => if kb.1 = path then some kb.2 else none
    | none => none
  let cache1 : Option (κ × β) :=
    match loaded_lora with
    | some kb => if kb.1 = path then loaded_lora else none
    | none => none
  match hit with
  | some b => (Except.ok b, cache1, false)
  | none =>
      match loader path with
      | Except.ok b => (Except.ok b, some (path, b), true)
      | Except.error e => (Except.error e, cache1, true)

/-- One `os.environ[key] = value` assignment. -/
def envSet (env : String → Option String) (k v : String) : String → Option String :=
  fun x => if x = k then some v else env x

/-- The credential loop at the top of `S3Bucket_Load_LoRA.load_lora`
(src/lora.py lines 205-207): `for key, value in bucket_creds.items(): if value:
os.environ[key] = value`. Keyword arguments are an association list in call
order; a falsy (empty) value leaves the environment untouched. -/
def setEnv (env : String → Option String) : List (String × String) → (String → Option String)
  | [] => env
  | (k, v) :: rest => setEnv (if v ≠ "" then envSet env k v else env) rest

/-- `load_checkpoint_lora` of either node class (src/lora.py lines 119-124 and
263-268): `torch.load` on the `pytorch_lora_weights.bin` sibling of `lora_path`
(the `model`/`clip` parameters of the Python method are unused). -/
def load_checkpoint_lora {B ε : Type} (torch_load : String → Except ε B)
    (lora_path : String) : Except ε B :=
  torch_load (checkpointWeightsPath lora_path)

/-- The loader branch of `S3Bucket_Load_LoRA.load_lora` on a cache miss
(src/lora.py lines 248-255): checkpoint-marked truthy paths go through
`load_checkpoint_lora`, everything else through `comfy.utils.load_torch_file`. -/
def s3Loader {B ε : Type} (torch_load : String → Except ε B)
    (load_torch_file : String → Except ε B) (p : String) : Except ε B :=
  if p ≠ "" ∧ pyContains p "checkpoint" = true then load_checkpoint_lora torch_load p
  else load_torch_file p

/-- The loader branch of `XLDB_LoRA.load_lora` on a cache miss
(src/lora.py lines 104-111). `folder_paths.get_full_path` may have returned
`None`, so the key is an `Option String`; `lora_path and "checkpoint" in
lora_path` is the Python truthiness test, and the non-checkpoint branch passes
the possibly-`None` path straight to `comfy.utils.load_torch_file`. -/
def xldbLoader {B ε : Type} (torch_load : String → Except ε B)
    (load_torch_file : Option String → Except ε B) : Option String → Except ε B
  | some s =>
      if s ≠ "" ∧ pyContains s "checkpoint" = true then load_checkpoint_lora torch_load s
      else load_torch_file (some s)
  | none => load_torch_file none

/-- One `FLOAT` widget configuration from `INPUT_TYPES` (values are exact
rationals). -/
structure FloatCfg where
  default : ℚ
  min : ℚ
  max : ℚ
  step : ℚ
deriving DecidableEq

/-- The `strength_model` widget of `S3Bucket_Load_LoRA.INPUT_TYPES`
(src/lora.py lines 158-163). -/
def S3_strength_model_cfg : FloatCfg := { default := 1, min := 0, max := 2, step := 1 / 100 }

/-- The `strength_clip` widget of `S3Bucket_Load_LoRA.INPUT_TYPES`
(src/lora.py lines 164-169). -/
def S3_strength_clip_cfg : FloatCfg := { default := 1, min := 0, max := 2, step := 1 / 100 }

/-- The external collaborators of `XLDB_LoRA.load_lora`. -/
structure XldbEnv (M C B ε : Type) where
  index : String → Option String
  load_torch_file : Option String → Except ε B
  torch_load : String → Except ε B
  load_lora_for_models : M → C → B → ℚ → ℚ → M × C

/-- Observable outcome of one `XLDB_LoRA.load_lora` invocation. -/
structure XldbResult (M C B ε : Type) where
  out : Except ε (M × C)
  loaded_lora : Option (Option String × B)
  loaderCalls : Nat
  cacheChecks : Nat
  merged : Option (ℚ × ℚ)

/-- `XLDB_LoRA.load_lora` (src/lora.py lines 76-116). `loaded_lora` is the
instance's cache slot; counters record how often the blob loader ran and
whether the cache logic was reached, and `merged` records the strength pair
passed to `comfy.sd.load_lora_for_models` when the merge happened. -/
def xldb_load_lora {M C B ε : Type} (E : XldbEnv M C B ε)
    (loaded_lora : Option (Option String × B)) (model : M) (clip : C)
    (lora_name : String) : XldbResult M C B ε :=
  let strength_model : ℚ := 1
  let strength_clip : ℚ := 1
  if lora_name = "None" then
    ⟨Except.ok (model, clip), loaded_lora, 0, 0, none⟩
  else
    let lora_path := E.index lora_name
    let gol := get_or_load loaded_lora lora_path (xldbLoader E.torch_load E.load_torch_file)
    let lc : Nat := if gol.2.2 then 1 else 0
    match gol.1 with
    | Except.error e => ⟨Except.error e, gol.2.1, lc, 1, none⟩
    | Except.ok lora =>
        let mc := E.load_lora_for_models model clip lora strength_model strength_clip
        ⟨Except.ok (mc.1, mc.2), gol.2.1, lc, 1, some (strength_model, strength_clip)⟩

/-- Files inside the staging directory `/tmp/loras` (deleted by the
`shutil.rmtree` reset in src/lora.py lines 218-219). -/
def inStaging (f : String) : Bool := pyStartsWith f "/tmp/loras/"

/-- The external collaborators of `S3Bucket_Load_LoRA.load_lora`. `uuid` is the
token `uuid.uuid4()` would freshly produce during the invocation. The two
download functions take the remote ref and the destination path and return the
final local path.

Modelled from the spec: `download_file_from_url` and
`download_file_from_s3_bucket` live in `s3_utils.py`, which is not among the
source files; per spec section 4.2 each backend ensures bytes exist locally
and "returns the final local path, which may differ slightly from the input if
the backend rewrites it", and it raises on failure. -/
structure S3Env (M C B ε : Type) where
  index : String → Option String
  uuid : String
  download_file_from_url : String → String → Except ε String
  download_file_from_s3_bucket : String → String → Except ε String
  load_torch_file : String → Except ε B
  torch_load : String → Except ε B
  load_lora_for_models : M → C → B → ℚ → ℚ → M × C

/-- The mutable state an `S3Bucket_Load_LoRA` invocation can touch: the
process environment, the instance's cache slot and name memo, and the set of
files on disk. -/
structure S3State (B : Type) where
  env : String → Option String
  loaded_lora : Option (String × B)
  lora_name_map : List (String × String)
  files : List String

/-- Observable outcome of one `S3Bucket_Load_LoRA.load_lora` invocation. -/
structure S3Result (M C B ε : Type) where
  out : Except ε (M × C)
  state : S3State B
  downloadCalls : Nat
  loaderCalls : Nat
  resolverCalls : Nat
  cacheChecks : Nat
  merged : Option (ℚ × ℚ)

/-- The fetch block of `S3Bucket_Load_LoRA.load_lora` (src/lora.py lines
214-237), run when the host index does not know the ref: reset the `/tmp/loras`
staging directory, resolve the local name, and download via the URL backend
when the ref mentions `drive.google`, the bucket backend otherwise.
Returns (outcome, files afterwards, name map afterwards); the downloaded file
exists at the path the backend returned. -/
def s3_fetch {M C B ε : Type} (E : S3Env M C B ε)
    (lora_name_map : List (String × String)) (files : List String)
    (lora_url_or_path : String) :
    Except ε String × List String × List (String × String) :=
  let files1 := files.filter (fun f => !(inStaging f))
  let nm := get_local_lora_name lora_name_map E.uuid lora_url_or_path
  let dest := "/tmp/loras/" ++ nm.1
  let dl :=
    if pyContains lora_url_or_path "drive.google" then
      E.download_file_from_url lora_url_or_path dest
    else
      E.download_file_from_s3_bucket lora_url_or_path dest
  match dl with
  | Except.ok finalPath => (Except.ok finalPath, finalPath :: files1, nm.2)
  | Except.error e => (Except.error e, files1, nm.2)

/-- The tail of `S3Bucket_Load_LoRA.load_lora` (src/lora.py lines 239-260):
single-slot cache lookup/refill on `local_lora_path`, then the merge call. -/
def s3_apply {M C B ε : Type} (E : S3Env M C B ε) (env1 : String → Option String)
    (cache : Option (String × B)) (map1 : List (String × String)) (files1 : List String)
    (model : M) (clip : C) (local_lora_path : String)
    (strength_model strength_clip : ℚ) (dc rc : Nat) : S3Result M C B ε :=
  let gol := get_or_load cache local_lora_path (s3Loader E.torch_load E.load_torch_file)
  let st1 : S3State B := ⟨env1, gol.2.1, map1, files1⟩
  let lc : Nat := if gol.2.2 then 1 else 0
  match gol.1 with
  | Except.error e => ⟨Except.error e, st1, dc, lc, rc, 1, none⟩
  | Except.ok lora =>
      let mc := E.load_lora_for_models model clip lora strength_model strength_clip
      ⟨Except.ok (mc.1, mc.2), st1, dc, lc, rc, 1, some (strength_model, strength_clip)⟩

/-- `S3Bucket_Load_LoRA.load_lora` (src/lora.py lines 191-260): copy truthy
credentials into the environment, return the pair unchanged on the `"None"` or
empty sentinel, otherwise use the host-indexed path when it is truthy and fetch
otherwise, then cache-load and merge. -/
def s3_load_lora {M C B ε : Type} (E : S3Env M C B ε) (st : S3State B)
    (model : M) (clip : C) (remote_lora_path_or_url : String)
    (strength_model strength_clip : ℚ)
    (bucket_creds : List (String × String)) : S3Result M C B ε :=
  let env1 := setEnv st.env bucket_creds
  if remote_lora_path_or_url = "None" ∨ remote_lora_path_or_url = "" then
    ⟨Except.ok (model, clip), ⟨env1, st.loaded_lora, st.lora_name_map, st.files⟩, 0, 0, 0, 0, none⟩
  else
    let idx := E.index remote_lora_path_or_url
    if optTruthy idx then
      s3_apply E env1 st.loaded_lora st.lora_name_map st.files model clip (idx.getD "")
        strength_model strength_clip 0 0
    else
      match s3_fetch E st.lora_name_map st.files remote_lora_path_or_url with
      | (Except.ok p, files1, map1) =>
          s3_apply E env1 st.loaded_lora map1 files1 model clip p
            strength_model strength_clip 1 1
      | (Except.error e, files1, map1) =>
          ⟨Except.error e, ⟨env1, st.loaded_lora, map1, files1⟩, 1, 0, 1, 0, none⟩

/-! ### Cache lemmas -/

/-- After any `get_or_load` call that returns `Except.ok b`, the cache slot
holds exactly `(path, b)`. -/
theorem get_or_load_ok_cache {κ β ε : Type} [DecidableEq κ]
    (c : Option (κ × β)) (p : κ) (f : κ → Except ε β) (b : β)
    (c' : Option (κ × β)) (i : Bool)
    (h : get_or_load c p f = (Except.ok b, c', i)) : c' = some (p, b) := by
  cases c with
  | none =>
      cases hf : f p with
      | ok b' =>
          simp [get_or_load, hf, Prod.ext_iff] at h
          simp [← h.1, h.2.1]
      | error e => simp [get_or_load, hf, Prod.ext_iff] at h
  | some kb =>
      by_cases hk : kb.1 = p
      · simp [get_or_load, hk, Prod.ext_iff] at h
        simp [← h.1, ← h.2.1, ← hk]
      · cases hf : f p with
        | ok b' =>
            simp [get_or_load, hk, hf, Prod.ext_iff] at h
            simp [← h.1, h.2.1]
        | error e => simp [get_or_load, hk, hf, Prod.ext_iff] at h

/-- C1: after a successful `get_or_load p f` on a node instance, a subsequent
`get_or_load p g` on the same instance returns the blob stored by the first
call, leaves the cache unchanged, and does not invoke `g`. -/
theorem get_or_load_returns_cached {κ β ε : Type} [DecidableEq κ]
    (c c1 : Option (κ × β)) (p : κ) (f g : κ → Except ε β) (b : β) (i : Bool)
    (h : get_or_load c p f = (Except.ok b, c1, i)) :
    get_or_load c1 p g = (Except.ok b, c1, false) := by
  have hc : c1 = some (p, b) := get_or_load_ok_cache c p f b c1 i h
  subst hc
  simp [get_or_load]

/-- Witness for C1 at a concrete input: a load of key 0 stored blob 5, and the
repeat call returns 5 without running the new loader. -/
theorem get_or_load_returns_cached_witness :
    get_or_load (some ((0 : Nat), (5 : Nat))) 0 (fun _ => (Except.ok 7 : Except Unit Nat))
      = (Except.ok 5, some (0, 5), false) :=
  get_or_load_returns_cached none (some (0, 5)) 0 (fun _ => Except.ok 5)
    (fun _ => Except.ok 7) 5 true rfl

/-- C2: the cache holds at most one entry. After `get_or_load p1 _` followed by
`get_or_load p2 _` with `p1 ≠ p2`, a further `get_or_load p1 k` is a cache miss:
it invokes `k` and returns whatever `k` produced. -/
theorem get_or_load_capacity_one {κ β ε : Type} [DecidableEq κ]
    (c0 c1 c2 : Option (κ × β)) (p1 p2 : κ) (f g k : κ → Except ε β)
    (b1 b2 : β) (i1 i2 : Bool) (hne : p1 ≠ p2)
    (h1 : get_or_load c0 p1 f = (Except.ok b1, c1, i1))
    (h2 : get_or_load c1 p2 g = (Except.ok b2, c2, i2)) :
    (get_or_load c2 p1 k).2.2 = true ∧ (get_or_load c2 p1 k).1 = k p1 := by
  have hc2 : c2 = some (p2, b2) := get_or_load_ok_cache c1 p2 g b2 c2 i2 h2
  subst hc2
  cases hk : k p1 with
  | ok b => simp [get_or_load, Ne.symm hne, hk]
  | error e => simp [get_or_load, Ne.symm hne, hk]

/-- Witness for C2 at a concrete input: loads for keys 0 then 1, after which a
load for key 0 runs its loader again. -/
theorem get_or_load_capacity_one_witness :
    (get_or_load (some ((1 : Nat), (6 : Nat))) 0 (fun _ => (Except.ok 8 : Except Unit Nat))).2.2
        = true ∧
      (get_or_load (some ((1 : Nat), (6 : Nat))) 0
          (fun _ => (Except.ok 8 : Except Unit Nat))).1 = Except.ok 8 :=
  get_or_load_capacity_one none (some (0, 5)) (some (1, 6)) 0 1
    (fun _ => Except.ok 5) (fun _ => Except.ok 6) (fun _ => Except.ok 8)
    5 6 true true (by decide) rfl rfl

/-! ### Resolver lemmas -/

/-- C3: `get_local_lora_name` memoizes. A repeat call with the same ref (and
any fresh uuid token) returns the first call's result and leaves the memo map
unchanged, so every later repeat returns the same local name. -/
theorem get_local_lora_name_memoized (m : List (String × String)) (u1 u2 r : String) :
    get_local_lora_name (get_local_lora_name m u1 r).2 u2 r
      = ((get_local_lora_name m u1 r).1, (get_local_lora_name m u1 r).2) := by
  cases hm : m.lookup r with
  | some v => simp [get_local_lora_name, hm]
  | none =>
      by_cases hend : (pyEndsWith r ".safetensors" || pyContains r "checkpoint") = true
      · simp [get_local_lora_name, hm, hend, List.lookup]
      · simp only [Bool.not_eq_true] at hend
        simp [get_local_lora_name, hm, hend, List.lookup]

/-- C4: the naming policy of `get_local_lora_name` on a not-yet-memoized ref.
A ref ending in `".safetensors"` or containing `"checkpoint"` resolves to
itself verbatim; any other ref resolves to the fresh uuid token with the
`".safetensors"` extension, which is never equal to the ref. -/
theorem get_local_lora_name_policy (m : List (String × String)) (u r : String)
    (hfresh : m.lookup r = none) :
    ((pyEndsWith r ".safetensors" = true ∨ pyContains r "checkpoint" = true) →
        (get_local_lora_name m u r).1 = r) ∧
    (pyEndsWith r ".safetensors" = false → pyContains r "checkpoint" = false → r ≠ "" →
        (get_local_lora_name m u r).1 = u ++ ".safetensors" ∧
        pyEndsWith (get_local_lora_name m u r).1 ".safetensors" = true ∧
        (get_local_lora_name m u r).1 ≠ r) := by
  constructor
  · intro hor
    rcases hor with h | h <;> simp [get_local_lora_name, hfresh, h]
  · intro h1 h2 _hne
    have hcond : (pyEndsWith r ".safetensors" || pyContains r "checkpoint") = false := by
      simp [h1, h2]
    have hres : (get_local_lora_name m u r).1 = u ++ ".safetensors" := by
      simp [get_local_lora_name, hfresh, hcond]
    refine ⟨hres, ?_, ?_⟩
    · rw [hres]
      simp [pyEndsWith, String.data_append]
    · rw [hres]
      intro heq
      rw [← heq] at h1
      simp [pyEndsWith, String.data_append] at h1

/-- Witness for C4 at the concrete ref `"model.safetensors"` on a fresh
instance: resolution keeps the name verbatim. -/
theorem get_local_lora_name_policy_witness :
    ((pyEndsWith "model.safetensors" ".safetensors" = true ∨
        pyContains "model.safetensors" "checkpoint" = true) →
      (get_local_lora_name [] "f47ac10b" "model.safetensors").1 = "model.safetensors") ∧
    (pyEndsWith "model.safetensors" ".safetensors" = false →
      pyContains "model.safetensors" "checkpoint" = false → "model.safetensors" ≠ "" →
      (get_local_lora_name [] "f47ac10b" "model.safetensors").1 = "f47ac10b" ++ ".safetensors" ∧
      pyEndsWith (get_local_lora_name [] "f47ac10b" "model.safetensors").1 ".safetensors" = true ∧
      (get_local_lora_name [] "f47ac10b" "model.safetensors").1 ≠ "model.safetensors") :=
  get_local_lora_name_policy [] "f47ac10b" "model.safetensors" rfl

/-! ### Sentinel handling (C5) -/

/-- C5 counterexample: with the empty identifier, `XLDB_LoRA.load_lora` does
not return the input model/clip pair unchanged — its guard tests only
`"None"`, so the cache logic and the blob loader run and the merge produces a
new pair (here the model handle changes from 0 to 1). -/
theorem xldb_empty_ident_counterexample :
    (xldb_load_lora
        ⟨fun _ => none, fun _ => (Except.ok 0 : Except Unit Nat), fun _ => Except.ok 0,
          fun m c _ _ _ => (m + 1, c)⟩
        none (0 : Nat) (0 : Nat) "").out = Except.ok (1, 0) ∧
    (xldb_load_lora
        ⟨fun _ => none, fun _ => (Except.ok 0 : Except Unit Nat), fun _ => Except.ok 0,
          fun m c _ _ _ => (m + 1, c)⟩
        none (0 : Nat) (0 : Nat) "").loaderCalls = 1 ∧
    (xldb_load_lora
        ⟨fun _ => none, fun _ => (Except.ok 0 : Except Unit Nat), fun _ => Except.ok 0,
          fun m c _ _ _ => (m + 1, c)⟩
        none (0 : Nat) (0 : Nat) "").cacheChecks = 1 := ⟨rfl, rfl, rfl⟩

/-- C5 (amended): `S3Bucket_Load_LoRA.load_lora` returns the input pair
unchanged for both the `"None"` sentinel and the empty identifier, invoking
neither fetcher, resolver, cache nor merge; `XLDB_LoRA.load_lora` does so for
the `"None"` sentinel only (the empty identifier falls through to its normal
load path). -/
theorem sentinel_identity {M C B ε : Type} (E : S3Env M C B ε) (F : XldbEnv M C B ε)
    (st : S3State B) (cache : Option (Option String × B)) (model : M) (clip : C)
    (sm sc : ℚ) (creds : List (String × String)) (r : String)
    (hr : r = "None" ∨ r = "") :
    ((s3_load_lora E st model clip r sm sc creds).out = Except.ok (model, clip) ∧
      (s3_load_lora E st model clip r sm sc creds).downloadCalls = 0 ∧
      (s3_load_lora E st model clip r sm sc creds).loaderCalls = 0 ∧
      (s3_load_lora E st model clip r sm sc creds).resolverCalls = 0 ∧
      (s3_load_lora E st model clip r sm sc creds).cacheChecks = 0 ∧
      (s3_load_lora E st model clip r sm sc creds).state.loaded_lora = st.loaded_lora ∧
      (s3_load_lora E st model clip r sm sc creds).merged = none) ∧
    ((xldb_load_lora F cache model clip "None").out = Except.ok (model, clip) ∧
      (xldb_load_lora F cache model clip "None").loaderCalls = 0 ∧
      (xldb_load_lora F cache model clip "None").cacheChecks = 0 ∧
      (xldb_load_lora F cache model clip "None").loaded_lora = cache ∧
      (xldb_load_lora F cache model clip "None").merged = none) := by
  constructor
  · unfold s3_load_lora
    rw [if_pos hr]
    simp
  · unfold xldb_load_lora
    simp

/-- Witness for C5 (amended) at a concrete input: the sentinel `"None"`. -/
theorem sentinel_identity_witness :
    ((s3_load_lora
        ⟨fun _ => none, "u", fun _ d => Except.ok d, fun _ d => Except.ok d,
          fun _ => (Except.ok 0 : Except Unit Nat), fun _ => Except.ok 0,
          fun m c _ _ _ => (m + 1, c)⟩
        ⟨fun _ => none, none, [], []⟩ (0 : Nat) (0 : Nat) "None" 1 1 []).out
        = Except.ok (0, 0) ∧
      (s3_load_lora
        ⟨fun _ => none, "u", fun _ d => Except.ok d, fun _ d => Except.ok d,
          fun _ => (Except.ok 0 : Except Unit Nat), fun _ => Except.ok 0,
          fun m c _ _ _ => (m + 1, c)⟩
        ⟨fun _ => none, none, [], []⟩ (0 : Nat) (0 : Nat) "None" 1 1 []).downloadCalls = 0 ∧
      (s3_load_lora
        ⟨fun _ => none, "u", fun _ d => Except.ok d, fun _ d => Except.ok d,
          fun _ => (Except.ok 0 : Except Unit Nat), fun _ => Except.ok 0,
          fun m c _ _ _ => (m + 1, c)⟩
        ⟨fun _ => none, none, [], []⟩ (0 : Nat) (0 : Nat) "None" 1 1 []).loaderCalls = 0 ∧
      (s3_load_lora
        ⟨fun _ => none, "u", fun _ d => Except.ok d, fun _ d => Except.ok d,
          fun _ => (Except.ok 0 : Except Unit Nat), fun _ => Except.ok 0,
          fun m c _ _ _ => (m + 1, c)⟩
        ⟨fun _ => none, none, [], []⟩ (0 : Nat) (0 : Nat) "None" 1 1 []).resolverCalls = 0 ∧
      (s3_load_lora
        ⟨fun _ => none, "u", fun _ d => Except.ok d, fun _ d => Except.ok d,
          fun _ => (Except.ok 0 : Except Unit Nat), fun _ => Except.ok 0,
          fun m c _ _ _ => (m + 1, c)⟩
        ⟨fun _ => none, none, [], []⟩ (0 : Nat) (0 : Nat) "None" 1 1 []).cacheChecks = 0 ∧
      (s3_load_lora
        ⟨fun _ => none, "u", fun _ d => Except.ok d, fun _ d => Except.ok d,
          fun _ => (Except.ok 0 : Except Unit Nat), fun _ => Except.ok 0,
          fun m c _ _ _ => (m + 1, c)⟩
        ⟨fun _ => none, none, [], []⟩ (0 : Nat) (0 : Nat) "None" 1 1 []).state.loaded_lora
        = none ∧
      (s3_load_lora
        ⟨fun _ => none, "u", fun _ d => Except.ok d, fun _ d => Except.ok d,
          fun _ => (Except.ok 0 : Except Unit Nat), fun _ => Except.ok 0,
          fun m c _ _ _ => (m + 1, c)⟩
        ⟨fun _ => none, none, [], []⟩ (0 : Nat) (0 : Nat) "None" 1 1 []).merged = none) ∧
    ((xldb_load_lora
        ⟨fun _ => none, fun _ => (Except.ok 0 : Except Unit Nat), fun _ => Except.ok 0,
          fun m c _ _ _ => (m + 1, c)⟩
        none (0 : Nat) (0 : Nat) "None").out = Except.ok (0, 0) ∧
      (xldb_load_lora
        ⟨fun _ => none, fun _ => (Except.ok 0 : Except Unit Nat), fun _ => Except.ok 0,
          fun m c _ _ _ => (m + 1, c)⟩
        none (0 : Nat) (0 : Nat) "None").loaderCalls = 0 ∧
      (xldb_load_lora
        ⟨fun _ => none, fun _ => (Except.ok 0 : Except Unit Nat), fun _ => Except.ok 0,
          fun m c _ _ _ => (m + 1, c)⟩
        none (0 : Nat) (0 : Nat) "None").cacheChecks = 0 ∧
      (xldb_load_lora
        ⟨fun _ => none, fun _ => (Except.ok 0 : Except Unit Nat), fun _ => Except.ok 0,
          fun m c _ _ _ => (m + 1, c)⟩
        none (0 : Nat) (0 : Nat) "None").loaded_lora = none ∧
      (xldb_load_lora
        ⟨fun _ => none, fun _ => (Except.ok 0 : Except Unit Nat), fun _ => Except.ok 0,
          fun m c _ _ _ => (m + 1, c)⟩
        none (0 : Nat) (0 : Nat) "None").merged = none) :=
  sentinel_identity
    ⟨fun _ => none, "u", fun _ d => Except.ok d, fun _ d => Except.ok d,
      fun _ => (Except.ok 0 : Except Unit Nat), fun _ => Except.ok 0,
      fun m c _ _ _ => (m + 1, c)⟩
    ⟨fun _ => none, fun _ => (Except.ok 0 : Except Unit Nat), fun _ => Except.ok 0,
      fun m c _ _ _ => (m + 1, c)⟩
    ⟨fun _ => none, none, [], []⟩ none 0 0 1 1 [] "None" (Or.inl rfl)

/-! ### Checkpoint loader path (C6) -/

/-- C6 counterexample: for the local path
`/a/checkpoint/pytorch_lora_weights.bin`, which contains the checkpoint
marker, the sibling file read by the checkpoint loader is exactly the local
path itself, refuting "never reads the local path itself". -/
theorem checkpoint_reads_itself_counterexample :
    pyContains "/a/checkpoint/pytorch_lora_weights.bin" "checkpoint" = true ∧
    loraReadPath "/a/checkpoint/pytorch_lora_weights.bin"
      = "/a/checkpoint/pytorch_lora_weights.bin" := by
  exact ⟨by decide, rfl⟩

/-- C6 (amended): on a cache miss for a truthy local path containing
`"checkpoint"`, the loader reads `pytorch_lora_weights.bin` in the parent
directory of the path — which is distinct from the local path unless the local
path already names that sibling file — and for every other path it reads the
local path itself. -/
theorem checkpoint_loader_policy {B ε : Type} (tl lf : String → Except ε B) (p : String) :
    (p ≠ "" → pyContains p "checkpoint" = true →
      loraReadPath p = checkpointWeightsPath p ∧
      s3Loader tl lf p = tl (checkpointWeightsPath p) ∧
      (p ≠ checkpointWeightsPath p → loraReadPath p ≠ p)) ∧
    ((p = "" ∨ pyContains p "checkpoint" = false) →
      loraReadPath p = p ∧ s3Loader tl lf p = lf p) := by
  constructor
  · intro h1 h2
    refine ⟨by simp [loraReadPath, h1, h2],
      by simp [s3Loader, load_checkpoint_lora, h1, h2], ?_⟩
    intro hne
    rw [loraReadPath, if_pos ⟨h1, h2⟩]
    exact fun he => hne he.symm
  · intro h
    rcases h with h | h
    · subst h
      simp [loraReadPath, s3Loader]
    · by_cases hp : p = ""
      · subst hp
        simp [loraReadPath, s3Loader]
      · simp [loraReadPath, s3Loader, hp, h]

/-- Witness for C6 (amended) at the concrete path
`/a/checkpoint/model.safetensors`. -/
theorem checkpoint_loader_policy_witness :
    (("/a/checkpoint/model.safetensors" : String) ≠ "" →
      pyContains "/a/checkpoint/model.safetensors" "checkpoint" = true →
      loraReadPath "/a/checkpoint/model.safetensors"
          = checkpointWeightsPath "/a/checkpoint/model.safetensors" ∧
      s3Loader (fun _ => (Except.ok 0 : Except Unit Nat)) (fun _ => Except.ok 1)
          "/a/checkpoint/model.safetensors"
          = (fun _ => (Except.ok 0 : Except Unit Nat))
              (checkpointWeightsPath "/a/checkpoint/model.safetensors") ∧
      (("/a/checkpoint/model.safetensors" : String)
            ≠ checkpointWeightsPath "/a/checkpoint/model.safetensors" →
        loraReadPath "/a/checkpoint/model.safetensors" ≠ "/a/checkpoint/model.safetensors")) ∧
    ((("/a/checkpoint/model.safetensors" : String) = "" ∨
        pyContains "/a/checkpoint/model.safetensors" "checkpoint" = false) →
      loraReadPath "/a/checkpoint/model.safetensors" = "/a/checkpoint/model.safetensors" ∧
      s3Loader (fun _ => (Except.ok 0 : Except Unit Nat)) (fun _ => Except.ok 1)
          "/a/checkpoint/model.safetensors"
          = (fun _ => (Except.ok 1 : Except Unit Nat)) "/a/checkpoint/model.safetensors") :=
  checkpoint_loader_policy (fun _ => Except.ok 0) (fun _ => Except.ok 1)
    "/a/checkpoint/model.safetensors"

/-! ### Staging-directory reset (C7) -/

/-- Files written under the staging prefix are staged. -/
theorem inStaging_append (name : String) : inStaging ("/tmp/loras/" ++ name) = true := by
  simp [inStaging, pyStartsWith, String.data_append]

/-- After deleting everything a predicate selects, nothing the predicate
selects remains. -/
theorem filter_after_reset {α : Type} (q : α → Bool) (l : List α) :
    (l.filter (fun a => !(q a))).filter q = [] := by
  induction l with
  | nil => rfl
  | cons a l ih => by_cases h : q a <;> simp [List.filter_cons, h, ih]

/-- Projections of the post-cache tail of `S3Bucket_Load_LoRA.load_lora`: the
cache step never touches the environment, the memo map, the filesystem or the
fetch counters, it checks the cache exactly once, and when it merges it does so
with the invocation's strength inputs. -/
theorem s3_apply_proj {M C B ε : Type} (E : S3Env M C B ε) (env1 : String → Option String)
    (cache : Option (String × B)) (map1 : List (String × String)) (files1 : List String)
    (model : M) (clip : C) (p : String) (sm sc : ℚ) (dc rc : Nat) :
    (s3_apply E env1 cache map1 files1 model clip p sm sc dc rc).state.env = env1 ∧
    (s3_apply E env1 cache map1 files1 model clip p sm sc dc rc).state.lora_name_map = map1 ∧
    (s3_apply E env1 cache map1 files1 model clip p sm sc dc rc).state.files = files1 ∧
    (s3_apply E env1 cache map1 files1 model clip p sm sc dc rc).downloadCalls = dc ∧
    (s3_apply E env1 cache map1 files1 model clip p sm sc dc rc).resolverCalls = rc ∧
    (s3_apply E env1 cache map1 files1 model clip p sm sc dc rc).cacheChecks = 1 ∧
    ((s3_apply E env1 cache map1 files1 model clip p sm sc dc rc).merged = none ∨
      (s3_apply E env1 cache map1 files1 model clip p sm sc dc rc).merged = some (sm, sc)) := by
  unfold s3_apply
  cases hg : (get_or_load cache p (s3Loader E.torch_load E.load_torch_file)).1 <;> simp [hg]

/-- When the host index does not know the ref and the download backends write
at the destination they are given, `s3_fetch` succeeds with the staged
destination, the staged files are exactly the new download, and the memo map
advances by the resolution. -/
theorem s3_fetch_ok {M C B ε : Type} (E : S3Env M C B ε)
    (lora_name_map : List (String × String)) (files : List String) (r : String)
    (hurl : ∀ a d, E.download_file_from_url a d = Except.ok d)
    (hs3 : ∀ a d, E.download_file_from_s3_bucket a d = Except.ok d) :
    s3_fetch E lora_name_map files r =
      (Except.ok ("/tmp/loras/" ++ (get_local_lora_name lora_name_map E.uuid r).1),
        ("/tmp/loras/" ++ (get_local_lora_name lora_name_map E.uuid r).1) ::
          files.filter (fun f => !(inStaging f)),
        (get_local_lora_name lora_name_map E.uuid r).2) := by
  unfold s3_fetch
  by_cases hg : pyContains r "drive.google" = true
  · simp [hg, hurl]
  · simp only [Bool.not_eq_true] at hg
    simp [hg, hs3]

/-- Filesystem and memo effect of one fetching `s3_load_lora` invocation with
well-behaved download backends: its staged files are exactly the fresh
download, every previously staged file is gone, and non-staged files are kept. -/
theorem s3_load_lora_fetch_files {M C B ε : Type} (E : S3Env M C B ε) (st : S3State B)
    (model : M) (clip : C) (r : String) (sm sc : ℚ) (creds : List (String × String))
    (hsent : ¬(r = "None" ∨ r = ""))
    (hidx : optTruthy (E.index r) = false)
    (hurl : ∀ a d, E.download_file_from_url a d = Except.ok d)
    (hs3 : ∀ a d, E.download_file_from_s3_bucket a d = Except.ok d) :
    (s3_load_lora E st model clip r sm sc creds).state.files =
      ("/tmp/loras/" ++ (get_local_lora_name st.lora_name_map E.uuid r).1) ::
        st.files.filter (fun f => !(inStaging f)) ∧
    (s3_load_lora E st model clip r sm sc creds).state.lora_name_map =
      (get_local_lora_name st.lora_name_map E.uuid r).2 := by
  unfold s3_load_lora
  rw [if_neg hsent, if_neg (by simp [hidx]), s3_fetch_ok E st.lora_name_map st.files r hurl hs3]
  exact ⟨(s3_apply_proj E _ _ _ _ model clip _ sm sc 1 1).2.2.1,
    (s3_apply_proj E _ _ _ _ model clip _ sm sc 1 1).2.1⟩

/-- C7: every fetch of a not-yet-indexed remote ref first resets the staging
directory. After two successive fetching invocations (download backends writing
at their given destination), the staging directory holds exactly the second
invocation's downloaded file; the first invocation's artifact survives only if
it is that very file. -/
theorem fetch_resets_staging {M C B ε : Type} (E1 E2 : S3Env M C B ε) (st st1 : S3State B)
    (model : M) (clip : C) (r1 r2 : String) (sm sc : ℚ)
    (creds1 creds2 : List (String × String)) (dest1 dest2 : String)
    (hs1 : ¬(r1 = "None" ∨ r1 = "")) (hi1 : optTruthy (E1.index r1) = false)
    (hu1 : ∀ a d, E1.download_file_from_url a d = Except.ok d)
    (hb1 : ∀ a d, E1.download_file_from_s3_bucket a d = Except.ok d)
    (hs2 : ¬(r2 = "None" ∨ r2 = "")) (hi2 : optTruthy (E2.index r2) = false)
    (hu2 : ∀ a d, E2.download_file_from_url a d = Except.ok d)
    (hb2 : ∀ a d, E2.download_file_from_s3_bucket a d = Except.ok d)
    (hst1 : st1 = (s3_load_lora E1 st model clip r1 sm sc creds1).state)
    (hd1 : dest1 = "/tmp/loras/" ++ (get_local_lora_name st.lora_name_map E1.uuid r1).1)
    (hd2 : dest2 = "/tmp/loras/" ++ (get_local_lora_name st1.lora_name_map E2.uuid r2).1) :
    (s3_load_lora E2 st1 model clip r2 sm sc creds2).state.files.filter inStaging
        = [dest2] ∧
    (dest1 ≠ dest2 → dest1 ∉ (s3_load_lora E2 st1 model clip r2 sm sc creds2).state.files) := by
  have hf1 := s3_load_lora_fetch_files E1 st model clip r1 sm sc creds1 hs1 hi1 hu1 hb1
  have hf2 := s3_load_lora_fetch_files E2 st1 model clip r2 sm sc creds2 hs2 hi2 hu2 hb2
  have hfiles1 : st1.files = dest1 :: st.files.filter (fun f => !(inStaging f)) := by
    rw [hst1, hf1.1, ← hd1]
  have hfiles2 : (s3_load_lora E2 st1 model clip r2 sm sc creds2).state.files =
      dest2 :: st1.files.filter (fun f => !(inStaging f)) := by
    rw [hf2.1, ← hd2]
  have hin1 : inStaging dest1 = true := hd1 ▸ inStaging_append _
  have hin2 : inStaging dest2 = true := hd2 ▸ inStaging_append _
  rw [hfiles2, hfiles1]
  constructor
  · simp only [List.filter_cons, hin2, hin1, Bool.not_true, List.filter_append]
    simp [filter_after_reset, hin2]
  · intro hne
    simp only [List.mem_cons, List.filter_cons, hin1, Bool.not_true]
    rintro (h | h)
    · exact hne h
    · have := (List.mem_filter.mp h).2
      rw [hin1] at this
      simp at this

/-- Witness for C7: two fetches for `a.safetensors` then `b.safetensors` from
an empty state leave only `/tmp/loras/b.safetensors` staged. -/
theorem fetch_resets_staging_witness :
    (s3_load_lora
        ⟨fun _ => none, "u", fun _ d => Except.ok d, fun _ d => Except.ok d,
          fun _ => (Except.ok 0 : Except Unit Nat), fun _ => Except.ok 0,
          fun m c _ _ _ => (m + 1, c)⟩
        ⟨fun _ => none, some ("/tmp/loras/a.safetensors", 0),
          [("a.safetensors", "a.safetensors")], ["/tmp/loras/a.safetensors"]⟩
        (0 : Nat) (0 : Nat) "b.safetensors" 1 1 []).state.files.filter inStaging
        = ["/tmp/loras/b.safetensors"] ∧
    (("/tmp/loras/a.safetensors" : String) ≠ "/tmp/loras/b.safetensors" →
      ("/tmp/loras/a.safetensors" : String) ∉
        (s3_load_lora
          ⟨fun _ => none, "u", fun _ d => Except.ok d, fun _ d => Except.ok d,
            fun _ => (Except.ok 0 : Except Unit Nat), fun _ => Except.ok 0,
            fun m c _ _ _ => (m + 1, c)⟩
          ⟨fun _ => none, some ("/tmp/loras/a.safetensors", 0),
            [("a.safetensors", "a.safetensors")], ["/tmp/loras/a.safetensors"]⟩
          (0 : Nat) (0 : Nat) "b.safetensors" 1 1 []).state.files) :=
  fetch_resets_staging
    ⟨fun _ => none, "u", fun _ d => Except.ok d, fun _ d => Except.ok d,
      fun _ => (Except.ok 0 : Except Unit Nat), fun _ => Except.ok 0,
      fun m c _ _ _ => (m + 1, c)⟩
    ⟨fun _ => none, "u", fun _ d => Except.ok d, fun _ d => Except.ok d,
      fun _ => (Except.ok 0 : Except Unit Nat), fun _ => Except.ok 0,
      fun m c _ _ _ => (m + 1, c)⟩
    ⟨fun _ => none, none, [], []⟩
    ⟨fun _ => none, some ("/tmp/loras/a.safetensors", 0),
      [("a.safetensors", "a.safetensors")], ["/tmp/loras/a.safetensors"]⟩
    0 0 "a.safetensors" "b.safetensors" 1 1 [] []
    "/tmp/loras/a.safetensors" "/tmp/loras/b.safetensors"
    (by decide) rfl (fun _ _ => rfl) (fun _ _ => rfl)
    (by decide) rfl (fun _ _ => rfl) (fun _ _ => rfl)
    rfl rfl rfl

/-! ### Merge strengths (C8) -/

/-- C8: whenever `XLDB_LoRA.load_lora` reaches the host merge it passes
strengths exactly (1, 1) regardless of input; whenever
`S3Bucket_Load_LoRA.load_lora` reaches the merge it passes the user-supplied
strengths; and the remote variant's declared schema bounds both strengths to
[0, 2] with default 1. -/
theorem merge_strength_policy {M C B ε : Type} (F : XldbEnv M C B ε) (E : S3Env M C B ε)
    (cache : Option (Option String × B)) (st : S3State B) (model : M) (clip : C)
    (lora_name r : String) (sm sc : ℚ) (creds : List (String × String)) :
    ((xldb_load_lora F cache model clip lora_name).merged = none ∨
      (xldb_load_lora F cache model clip lora_name).merged = some (1, 1)) ∧
    ((s3_load_lora E st model clip r sm sc creds).merged = none ∨
      (s3_load_lora E st model clip r sm sc creds).merged = some (sm, sc)) ∧
    S3_strength_model_cfg.default = 1 ∧ S3_strength_model_cfg.min = 0 ∧
    S3_strength_model_cfg.max = 2 ∧ S3_strength_clip_cfg.default = 1 ∧
    S3_strength_clip_cfg.min = 0 ∧ S3_strength_clip_cfg.max = 2 := by
  refine ⟨?_, ?_, rfl, rfl, rfl, rfl, rfl, rfl⟩
  · unfold xldb_load_lora
    by_cases h : lora_name = "None"
    · simp [h]
    · rw [if_neg h]
      cases hg : (get_or_load cache (F.index lora_name)
          (xldbLoader F.torch_load F.load_torch_file)).1 <;> simp [hg]
  · unfold s3_load_lora
    by_cases h : r = "None" ∨ r = ""
    · rw [if_pos h]
      simp
    · rw [if_neg h]
      by_cases hidx : optTruthy (E.index r) = true
      · rw [if_pos hidx]
        exact (s3_apply_proj E _ _ _ _ model clip _ sm sc 0 0).2.2.2.2.2.2
      · rw [if_neg hidx]
        rcases hf : s3_fetch E st.lora_name_map st.files r with ⟨dl, files1, map1⟩
        cases dl with
        | ok p =>
            simp only [hf]
            exact (s3_apply_proj E _ _ _ _ model clip _ sm sc 1 1).2.2.2.2.2.2
        | error e => simp [hf]

/-! ### Error propagation (C9) -/

/-- The remote variant's miss-path loader fails whenever both host decoders
fail. -/
theorem s3Loader_error {B ε : Type} (tl lf : String → Except ε B) (e : ε) (p : String)
    (h1 : ∀ q, lf q = Except.error e) (h2 : ∀ q, tl q = Except.error e) :
    s3Loader tl lf p = Except.error e := by
  unfold s3Loader load_checkpoint_lora
  by_cases hc : p ≠ "" ∧ pyContains p "checkpoint" = true
  · rw [if_pos hc]; exact h2 _
  · rw [if_neg hc]; exact h1 _

/-- The local variant's miss-path loader fails whenever both host decoders
fail. -/
theorem xldbLoader_error {B ε : Type} (tl : String → Except ε B)
    (lf : Option String → Except ε B) (e : ε) (p : Option String)
    (h1 : ∀ q, lf q = Except.error e) (h2 : ∀ q, tl q = Except.error e) :
    xldbLoader tl lf p = Except.error e := by
  cases p with
  | none => exact h1 _
  | some s =>
      by_cases hc : s ≠ "" ∧ pyContains s "checkpoint" = true
      · simp only [xldbLoader]
        rw [if_pos hc]
        exact h2 _
      · simp only [xldbLoader]
        rw [if_neg hc]
        exact h1 _

/-- On an empty cache with an always-failing loader, the cache step propagates
the loader's error after exactly one invocation. -/
theorem get_or_load_error {κ β ε : Type} [DecidableEq κ] (p : κ) (f : κ → Except ε β)
    (e : ε) (hf : f p = Except.error e) :
    get_or_load (none : Option (κ × β)) p f = (Except.error e, none, true) := by
  simp [get_or_load, hf]

/-- The post-cache tail propagates a loader failure unmodified, after exactly
one loader invocation. -/
theorem s3_apply_loader_error {M C B ε : Type} (E : S3Env M C B ε)
    (env1 : String → Option String) (map1 : List (String × String))
    (files1 : List String) (model : M) (clip : C) (p : String) (sm sc : ℚ)
    (dc rc : Nat) (e : ε)
    (h1 : ∀ q, E.load_torch_file q = Except.error e)
    (h2 : ∀ q, E.torch_load q = Except.error e) :
    (s3_apply E env1 none map1 files1 model clip p sm sc dc rc).out = Except.error e ∧
    (s3_apply E env1 none map1 files1 model clip p sm sc dc rc).loaderCalls = 1 := by
  have hg := get_or_load_error p (s3Loader E.torch_load E.load_torch_file) e
    (s3Loader_error E.torch_load E.load_torch_file e p h1 h2)
  unfold s3_apply
  rw [hg]
  exact ⟨rfl, rfl⟩

/-- C9: no error raised during fetch or decode is caught or retried inside
either node's `load_lora`. A failing download backend makes the remote variant
fail with that very error after a single download attempt and no decode; a
failing decoder makes either variant fail with the decoder's error after a
single decode attempt. -/
theorem errors_propagate {M C B ε : Type} :
    (∀ (E : S3Env M C B ε) (st : S3State B) (model : M) (clip : C) (r : String)
        (sm sc : ℚ) (creds : List (String × String)) (e : ε),
      ¬(r = "None" ∨ r = "") →
      optTruthy (E.index r) = false →
      (∀ a d, E.download_file_from_url a d = Except.error e) →
      (∀ a d, E.download_file_from_s3_bucket a d = Except.error e) →
      (s3_load_lora E st model clip r sm sc creds).out = Except.error e ∧
      (s3_load_lora E st model clip r sm sc creds).downloadCalls = 1 ∧
      (s3_load_lora E st model clip r sm sc creds).loaderCalls = 0) ∧
    (∀ (E : S3Env M C B ε) (st : S3State B) (model : M) (clip : C) (r : String)
        (sm sc : ℚ) (creds : List (String × String)) (e : ε),
      ¬(r = "None" ∨ r = "") →
      st.loaded_lora = none →
      (∀ a d, E.download_file_from_url a d = Except.ok d) →
      (∀ a d, E.download_file_from_s3_bucket a d = Except.ok d) →
      (∀ q, E.load_torch_file q = Except.error e) →
      (∀ q, E.torch_load q = Except.error e) →
      (s3_load_lora E st model clip r sm sc creds).out = Except.error e ∧
      (s3_load_lora E st model clip r sm sc creds).loaderCalls = 1) ∧
    (∀ (F : XldbEnv M C B ε) (model : M) (clip : C) (lora_name : String) (e : ε),
      lora_name ≠ "None" →
      (∀ q, F.load_torch_file q = Except.error e) →
      (∀ q, F.torch_load q = Except.error e) →
      (xldb_load_lora F none model clip lora_name).out = Except.error e ∧
      (xldb_load_lora F none model clip lora_name).loaderCalls = 1) := by
  refine ⟨?_, ?_, ?_⟩
  · intro E st model clip r sm sc creds e hsent hidx hu hb
    have hfetch : s3_fetch E st.lora_name_map st.files r =
        (Except.error e, st.files.filter (fun f => !(inStaging f)),
          (get_local_lora_name st.lora_name_map E.uuid r).2) := by
      unfold s3_fetch
      by_cases hg : pyContains r "drive.google" = true
      · simp [hg, hu]
      · simp only [Bool.not_eq_true] at hg
        simp [hg, hb]
    unfold s3_load_lora
    rw [if_neg hsent, if_neg (by simp [hidx]), hfetch]
    exact ⟨rfl, rfl, rfl⟩
  · intro E st model clip r sm sc creds e hsent hcache hu hb h1 h2
    unfold s3_load_lora
    rw [if_neg hsent]
    by_cases hidx : optTruthy (E.index r) = true
    · rw [if_pos hidx, hcache]
      exact s3_apply_loader_error E _ _ _ model clip _ sm sc 0 0 e h1 h2
    · rw [if_neg hidx, s3_fetch_ok E st.lora_name_map st.files r hu hb, hcache]
      exact s3_apply_loader_error E _ _ _ model clip _ sm sc 1 1 e h1 h2
  · intro F model clip lora_name e hsent h1 h2
    have hl := xldbLoader_error F.torch_load F.load_torch_file e (F.index lora_name) h1 h2
    have hg := get_or_load_error (F.index lora_name)
      (xldbLoader F.torch_load F.load_torch_file) e hl
    unfold xldb_load_lora
    rw [if_neg hsent]
    simp [hg]

/-- Witness for C9: the three failure modes at concrete inputs — a download
backend failing with error 7, the remote decoder failing with error 9, and the
local decoder failing with error 11 — each propagate unmodified. -/
theorem errors_propagate_witness :
    ((s3_load_lora
        ⟨fun _ => none, "u", fun _ _ => Except.error 7, fun _ _ => Except.error 7,
          fun _ => (Except.ok 0 : Except Nat Nat), fun _ => Except.ok 0,
          fun m c _ _ _ => (m + 1, c)⟩
        ⟨fun _ => none, none, [], []⟩ (0 : Nat) (0 : Nat) "k" 1 1 []).out
        = Except.error 7 ∧
      (s3_load_lora
        ⟨fun _ => none, "u", fun _ _ => Except.error 7, fun _ _ => Except.error 7,
          fun _ => (Except.ok 0 : Except Nat Nat), fun _ => Except.ok 0,
          fun m c _ _ _ => (m + 1, c)⟩
        ⟨fun _ => none, none, [], []⟩ (0 : Nat) (0 : Nat) "k" 1 1 []).downloadCalls = 1 ∧
      (s3_load_lora
        ⟨fun _ => none, "u", fun _ _ => Except.error 7, fun _ _ => Except.error 7,
          fun _ => (Except.ok 0 : Except Nat Nat), fun _ => Except.ok 0,
          fun m c _ _ _ => (m + 1, c)⟩
        ⟨fun _ => none, none, [], []⟩ (0 : Nat) (0 : Nat) "k" 1 1 []).loaderCalls = 0) ∧
    ((s3_load_lora
        ⟨fun _ => none, "u", fun _ d => Except.ok d, fun _ d => Except.ok d,
          fun _ => (Except.error 9 : Except Nat Nat), fun _ => Except.error 9,
          fun m c _ _ _ => (m + 1, c)⟩
        ⟨fun _ => none, none, [], []⟩ (0 : Nat) (0 : Nat) "k" 1 1 []).out
        = Except.error 9 ∧
      (s3_load_lora
        ⟨fun _ => none, "u", fun _ d => Except.ok d, fun _ d => Except.ok d,
          fun _ => (Except.error 9 : Except Nat Nat), fun _ => Except.error 9,
          fun m c _ _ _ => (m + 1, c)⟩
        ⟨fun _ => none, none, [], []⟩ (0 : Nat) (0 : Nat) "k" 1 1 []).loaderCalls = 1) ∧
    ((xldb_load_lora
        ⟨fun _ => none, fun _ => (Except.error 11 : Except Nat Nat),
          fun _ => Except.error 11, fun m c _ _ _ => (m + 1, c)⟩
        none (0 : Nat) (0 : Nat) "x.safetensors").out = Except.error 11 ∧
      (xldb_load_lora
        ⟨fun _ => none, fun _ => (Except.error 11 : Except Nat Nat),
          fun _ => Except.error 11, fun m c _ _ _ => (m + 1, c)⟩
        none (0 : Nat) (0 : Nat) "x.safetensors").loaderCalls = 1) :=
  ⟨errors_propagate.1
      ⟨fun _ => none, "u", fun _ _ => Except.error 7, fun _ _ => Except.error 7,
        fun _ => (Except.ok 0 : Except Nat Nat), fun _ => Except.ok 0,
        fun m c _ _ _ => (m + 1, c)⟩
      ⟨fun _ => none, none, [], []⟩ 0 0 "k" 1 1 [] 7
      (by decide) rfl (fun _ _ => rfl) (fun _ _ => rfl),
    errors_propagate.2.1
      ⟨fun _ => none, "u", fun _ d => Except.ok d, fun _ d => Except.ok d,
        fun _ => (Except.error 9 : Except Nat Nat), fun _ => Except.error 9,
        fun m c _ _ _ => (m + 1, c)⟩
      ⟨fun _ => none, none, [], []⟩ 0 0 "k" 1 1 [] 9
      (by decide) rfl (fun _ _ => rfl) (fun _ _ => rfl) (fun _ => rfl) (fun _ => rfl),
    errors_propagate.2.2
      ⟨fun _ => none, fun _ => (Except.error 11 : Except Nat Nat),
        fun _ => Except.error 11, fun m c _ _ _ => (m + 1, c)⟩
      0 0 "x.safetensors" 11 (by decide) (fun _ => rfl) (fun _ => rfl)⟩

/-! ### Credential environment hand-off (C10) -/

/-- Keys the credential loop never mentions keep their prior value. -/
theorem setEnv_not_mem (k : String) :
    ∀ (l : List (String × String)) (env : String → Option String),
      k ∉ l.map Prod.fst → setEnv env l k = env k := by
  intro l
  induction l with
  | nil => intro env _; rfl
  | cons kv rest ih =>
      intro env hk
      obtain ⟨k', v'⟩ := kv
      simp only [List.map_cons, List.mem_cons] at hk
      push_neg at hk
      rw [setEnv, ih _ hk.2]
      by_cases hv : v' ≠ ""
      · rw [if_pos hv]
        unfold envSet
        rw [if_neg hk.1]
      · rw [if_neg hv]

/-- A credential with a non-empty value ends up in the environment (keyword
argument keys are pairwise distinct). -/
theorem setEnv_mem_of_ne (k v : String) :
    ∀ (l : List (String × String)) (env : String → Option String),
      (l.map Prod.fst).Nodup → (k, v) ∈ l → v ≠ "" → setEnv env l k = some v := by
  intro l
  induction l with
  | nil => intro env _ hm _; cases hm
  | cons kv rest ih =>
      intro env hnd hm hv
      obtain ⟨k', v'⟩ := kv
      simp only [List.map_cons, List.nodup_cons] at hnd
      rcases List.mem_cons.mp hm with hh | ht
      · injection hh with hk hvv
        subst hk
        subst hvv
        rw [setEnv, if_pos hv, setEnv_not_mem _ _ _ hnd.1]
        unfold envSet
        rw [if_pos rfl]
      · rw [setEnv]
        exact ih _ hnd.2 ht hv

/-- A credential with an empty value leaves its environment variable
unchanged (keyword argument keys are pairwise distinct). -/
theorem setEnv_mem_empty (k : String) :
    ∀ (l : List (String × String)) (env : String → Option String),
      (l.map Prod.fst).Nodup → (k, "") ∈ l → setEnv env l k = env k := by
  intro l
  induction l with
  | nil => intro env _ hm; cases hm
  | cons kv rest ih =>
      intro env hnd hm
      obtain ⟨k', v'⟩ := kv
      simp only [List.map_cons, List.nodup_cons] at hnd
      rcases List.mem_cons.mp hm with hh | ht
      · injection hh with hk hvv
        subst hk
        subst hvv
        rw [setEnv, if_neg (by simp), setEnv_not_mem _ _ _ hnd.1]
      · have hkne : k ≠ k' := by
          intro heq
          exact hnd.1 (heq ▸ (List.mem_map.mpr ⟨(k, ""), ht, rfl⟩))
        rw [setEnv, ih _ hnd.2 ht]
        by_cases hv : v' ≠ ""
        · rw [if_pos hv]
          unfold envSet
          rw [if_neg hkne]
        · rw [if_neg hv]

/-- C10: `S3Bucket_Load_LoRA.load_lora` copies every truthy credential into the
process environment before the sentinel check, so even a `"None"`- or
empty-identifier invocation (which returns the pair unchanged) mutates the
environment; credentials with an empty value leave their variable unchanged. -/
theorem creds_env_before_sentinel {M C B ε : Type} (E : S3Env M C B ε) (st : S3State B)
    (model : M) (clip : C) (sm sc : ℚ) (creds : List (String × String)) (r : String)
    (hr : r = "None" ∨ r = "") (hnd : (creds.map Prod.fst).Nodup) :
    (s3_load_lora E st model clip r sm sc creds).state.env = setEnv st.env creds ∧
    (s3_load_lora E st model clip r sm sc creds).out = Except.ok (model, clip) ∧
    (∀ k v, (k, v) ∈ creds → v ≠ "" →
      (s3_load_lora E st model clip r sm sc creds).state.env k = some v) ∧
    (∀ k, (k, "") ∈ creds →
      (s3_load_lora E st model clip r sm sc creds).state.env k = st.env k) := by
  have henv : (s3_load_lora E st model clip r sm sc creds).state.env = setEnv st.env creds := by
    unfold s3_load_lora
    rw [if_pos hr]
  have hout : (s3_load_lora E st model clip r sm sc creds).out = Except.ok (model, clip) := by
    unfold s3_load_lora
    rw [if_pos hr]
  refine ⟨henv, hout, ?_, ?_⟩
  · intro k v hm hv
    rw [henv]
    exact setEnv_mem_of_ne k v creds st.env hnd hm hv
  · intro k hm
    rw [henv]
    exact setEnv_mem_empty k creds st.env hnd hm

/-- Witness for C10: an invocation with identifier `"None"` and two
credentials, one truthy and one empty, mutates exactly the truthy one. -/
theorem creds_env_before_sentinel_witness :
    (s3_load_lora
        ⟨fun _ => none, "u", fun _ d => Except.ok d, fun _ d => Except.ok d,
          fun _ => (Except.ok 0 : Except Unit Nat), fun _ => Except.ok 0,
          fun m c _ _ _ => (m + 1, c)⟩
        ⟨fun _ => none, none, [], []⟩ (0 : Nat) (0 : Nat) "None" 1 1
        [("BUCKET_NAME", "b"), ("BUCKET_ENDPOINT_URL", "")]).state.env
        = setEnv (fun _ => none) [("BUCKET_NAME", "b"), ("BUCKET_ENDPOINT_URL", "")] ∧
    (s3_load_lora
        ⟨fun _ => none, "u", fun _ d => Except.ok d, fun _ d => Except.ok d,
          fun _ => (Except.ok 0 : Except Unit Nat), fun _ => Except.ok 0,
          fun m c _ _ _ => (m + 1, c)⟩
        ⟨fun _ => none, none, [], []⟩ (0 : Nat) (0 : Nat) "None" 1 1
        [("BUCKET_NAME", "b"), ("BUCKET_ENDPOINT_URL", "")]).out = Except.ok (0, 0) ∧
    (∀ k v, (k, v) ∈ [("BUCKET_NAME", "b"), ("BUCKET_ENDPOINT_URL", "")] → v ≠ "" →
      (s3_load_lora
        ⟨fun _ => none, "u", fun _ d => Except.ok d, fun _ d => Except.ok d,
          fun _ => (Except.ok 0 : Except Unit Nat), fun _ => Except.ok 0,
          fun m c _ _ _ => (m + 1, c)⟩
        ⟨fun _ => none, none, [], []⟩ (0 : Nat) (0 : Nat) "None" 1 1
        [("BUCKET_NAME", "b"), ("BUCKET_ENDPOINT_URL", "")]).state.env k = some v) ∧
    (∀ k, (k, "") ∈ [("BUCKET_NAME", "b"), ("BUCKET_ENDPOINT_URL", "")] →
      (s3_load_lora
        ⟨fun _ => none, "u", fun _ d => Except.ok d, fun _ d => Except.ok d,
          fun _ => (Except.ok 0 : Except Unit Nat), fun _ => Except.ok 0,
          fun m c _ _ _ => (m + 1, c)⟩
        ⟨fun _ => none, none, [], []⟩ (0 : Nat) (0 : Nat) "None" 1 1
        [("BUCKET_NAME", "b"), ("BUCKET_ENDPOINT_URL", "")]).state.env k
        = (fun _ => none) k) :=
  creds_env_before_sentinel
    ⟨fun _ => none, "u", fun _ d => Except.ok d, fun _ d => Except.ok d,
      fun _ => (Except.ok 0 : Except Unit Nat), fun _ => Except.ok 0,
      fun m c _ _ _ => (m + 1, c)⟩
    ⟨fun _ => none, none, [], []⟩ 0 0 1 1
    [("BUCKET_NAME", "b"), ("BUCKET_ENDPOINT_URL", "")] "None"
    (Or.inl rfl) (by decide)

end SDXLLora
